import Mathlib

/-!
Verification of the configuration-extraction subsystem of the Simulations
repository against its specification.  The subsystem lives twice in the
source: once inside `sim_manager.py` (`extract_and_link_fields_command`,
`create_manager_script`) and once, refactored, in `commands/dev_tools.py`
(`_extract_variables_from_file`, `_prepare_config_data`,
`_find_insertion_point`, `_generate_argparse_code`,
`_modify_file_for_argparse`, `extract_and_link_fields_command`,
`create_manager_script`).  Both are embedded below, in namespaces `sim`
and `dev`; shared data (Python values, the AST fragment the tool reads,
`ast.literal_eval`) comes first.
-/

namespace Sim2Cfg

/-- Python values as `ast.literal_eval` produces them for the shapes the tool
reads: booleans, integers, floats (the subject files only bind finite decimal
literals, so floats are carried exactly as rationals; IEEE rounding is out of
scope), strings, lists, tuples and dicts (parallel key/value lists), and
`None`.  `bytes`/`complex`/`Ellipsis` never occur in the tool's inputs and
are omitted. -/
inductive PyVal where
  | bool (b : Bool)
  | int (n : Int)
  | float (q : Rat)
  | str (s : String)
  | list (xs : List PyVal)
  | tuple (xs : List PyVal)
  | dict (keys vals : List PyVal)
  | noneV

/-- The expression fragment of the Python AST the tool inspects: constants,
list/tuple/dict displays, unary minus (`ast.UnaryOp` with `ast.USub`), names,
attribute access (`args.x`), binary operations, calls, and a catch-all for
every other expression form (all of which the tool treats alike: not a
constant and not evaluable by `ast.literal_eval`). -/
inductive PyExpr where
  | const (v : PyVal)
  | listE (xs : List PyExpr)
  | tupleE (xs : List PyExpr)
  | dictE (keys vals : List PyExpr)
  | usub (e : PyExpr)
  | name (id : String)
  | attrE (obj : PyExpr) (field : String)
  | binop (l : PyExpr) (op : String) (r : PyExpr)
  | call (fn : PyExpr) (argsE : List PyExpr)
  | otherExpr (src : String)

mutual

/-- `ast.literal_eval` applied to an expression node, `none` when it raises.
Constants always evaluate (possibly to `None`); displays evaluate when all
elements do; unary minus evaluates only on an `int`/`float` constant operand
(CPython's `_convert_num` rejects `bool` operands since `type(True)` is not
in `(int, float, complex)`); every other node raises `ValueError`. -/
def literalEval : PyExpr → Option PyVal
  | .const v => some v
  | .listE xs => (literalEvalList xs).map PyVal.list
  | .tupleE xs => (literalEvalList xs).map PyVal.tuple
  | .dictE ks vs =>
    match literalEvalList ks, literalEvalList vs with
    | some k, some v => some (PyVal.dict k v)
    | _, _ => none
  | .usub e =>
    match e with
    | .const (.int n) => some (PyVal.int (-n))
    | .const (.float q) => some (PyVal.float (-q))
    | _ => none
  | _ => none

/-- `literalEval` over the elements of a display. -/
def literalEvalList : List PyExpr → Option (List PyVal)
  | [] => some []
  | e :: es =>
    match literalEval e, literalEvalList es with
    | some v, some vs => some (v :: vs)
    | _, _ => none

end

/-- A single-statement assignment node (`ast.Assign`): its target list, value
expression, the verbatim source text of the value (`ast.get_source_segment`,
`none` when unavailable), and position. -/
inductive PyTarget where
  | name (id : String)
  | otherTarget

structure PyAssign where
  targets : List PyTarget
  value : PyExpr
  valueSrc : Option String
  lineno : Nat
  col_offset : Nat

/-- The statement fragment the tool distinguishes: assignments, statements
with nested bodies (function/class definitions -- the nesting forms
`ast.walk` descends into that the claims exercise), and everything else. -/
inductive PyStmt where
  | assign (a : PyAssign)
  | funcDef (nm : String) (body : List PyStmt)
  | classDef (nm : String) (body : List PyStmt)
  | otherStmt

/-- A parsed file (`ast.parse` result): its top-level statement list. -/
structure PyModule where
  body : List PyStmt

/-! ### String helpers mirroring the Python operations the tool uses

All character-level and structurally recursive, so that concrete runs of the
embedded code reduce inside the kernel. -/

/-- Python `s.startswith(pat)` over character lists. -/
def charsStartWith : List Char → List Char → Bool
  | _, [] => true
  | [], _ :: _ => false
  | c :: cs, p :: ps => c == p && charsStartWith cs ps

/-- Python `pat in s` over character lists. -/
def charsContain : List Char → List Char → Bool
  | [], pat => pat.isEmpty
  | s@(_ :: cs), pat => charsStartWith s pat || charsContain cs pat

/-- Python `s.count(pat)` (non-overlapping, scanned left to right); `fuel`
bounds the scan by the text's length. -/
def charsCountAux : Nat → List Char → List Char → Nat
  | 0, _, _ => 0
  | _ + 1, [], _ => 0
  | fuel + 1, s@(_ :: cs), pat =>
    if pat.isEmpty then 0
    else if charsStartWith s pat then
      1 + charsCountAux fuel (s.drop pat.length) pat
    else charsCountAux fuel cs pat

/-- Python `s.replace(pat, rep)` (every non-overlapping occurrence). -/
def charsReplaceAux : Nat → List Char → List Char → List Char → List Char
  | 0, s, _, _ => s
  | _ + 1, [], _, _ => []
  | fuel + 1, s@(c :: cs), pat, rep =>
    if pat.isEmpty then s
    else if charsStartWith s pat then
      rep ++ charsReplaceAux fuel (s.drop pat.length) pat rep
    else c :: charsReplaceAux fuel cs pat rep

/-- Python `s.startswith(pat)`. -/
def pStartsWith (s pat : String) : Bool := charsStartWith s.data pat.data

/-- Python `pat in s`. -/
def hasSubstr (s pat : String) : Bool := charsContain s.data pat.data

/-- Python `s.count(pat)` for the non-empty patterns the tool counts. -/
def countSubstr (s pat : String) : Nat := charsCountAux s.data.length s.data pat.data

/-- Python `s.lower()` (the tool lowers identifiers, which stay in the
range `Char.toLower` handles). -/
def pyLower (s : String) : String := String.mk (s.data.map Char.toLower)

/-- Python `s.replace(pat, rep)`. -/
def pyReplace (s pat rep : String) : String :=
  String.mk (charsReplaceAux s.data.length s.data pat.data rep.data)

/-- Python `s.strip()`. -/
def pstrip (s : String) : String :=
  String.mk (((s.data.dropWhile Char.isWhitespace).reverse.dropWhile
    Char.isWhitespace).reverse)

/-- `len(line) - len(line.lstrip())`: the number of leading whitespace
characters. -/
def lstripLen (s : String) : Nat := (s.data.takeWhile Char.isWhitespace).length

/-- Python `str()` of a float carried as an exact decimal rational: integer
part, a point, then the fractional digits (at least one, as in `"10.0"`).
Rationals without a finite decimal expansion cannot arise from float source
literals; they fall back to the raw rational rendering. -/
def floatStr (q : Rat) : String :=
  let sign := if q < 0 then "-" else ""
  let a := |q|
  match (List.range 18).find? (fun k => (a * (10 : Rat) ^ k).den == 1) with
  | some 0 => sign ++ toString a.num ++ ".0"
  | some k =>
    let p : Nat := 10 ^ k
    let m : Nat := (a * (10 : Rat) ^ k).num.toNat
    let fs := toString (m % p)
    sign ++ toString (m / p) ++ "." ++ String.mk (List.replicate (k - fs.length) '0') ++ fs
  | none => toString q

/-- Comma-joined rendered elements of a container display. -/
def joinComma : List String → String
  | [] => ""
  | [x] => x
  | x :: xs => x ++ ", " ++ joinComma xs

/-- Comma-joined `key: value` pairs of a dict display, from the two rendered
parallel lists. -/
def joinPairs : List String → List String → String
  | [], _ => ""
  | _ :: _, [] => ""
  | [k], v :: _ => k ++ ": " ++ v
  | k :: ks, v :: vs => k ++ ": " ++ v ++ ", " ++ joinPairs ks vs

mutual

/-- Python `repr()` for the modelled values: `True`/`False`, decimal
integers, floats, quoted strings (single quotes, or double quotes when the
text holds a single quote and no double quote, with
backslash/newline/tab/quote escapes), container displays, `None`. -/
def pyRepr : PyVal → String
  | .bool b => if b then "True" else "False"
  | .int n => toString n
  | .float q => floatStr q
  | .str s =>
    let esc := fun (quote : Char) => String.join (s.data.map (fun c =>
      if c == '\\' then "\\\\"
      else if c == '\n' then "\\n"
      else if c == '\t' then "\\t"
      else if c == '\r' then "\\r"
      else if c == quote then "\\" ++ String.mk [c]
      else String.mk [c]))
    if s.data.contains '\'' && !(s.data.contains '"') then "\"" ++ esc '"' ++ "\""
    else "'" ++ esc '\'' ++ "'"
  | .list xs => "[" ++ joinComma (pyReprList xs) ++ "]"
  | .tuple xs =>
    (match pyReprList xs with
     | [x] => "(" ++ x ++ ",)"
     | ys => "(" ++ joinComma ys ++ ")")
  | .dict ks vs => "\x7b" ++ joinPairs (pyReprList ks) (pyReprList vs) ++ "\x7d"
  | .noneV => "None"

/-- `pyRepr` over a container's elements. -/
def pyReprList : List PyVal → List String
  | [] => []
  | x :: xs => pyRepr x :: pyReprList xs

end

/-- Python `str()` as used by the tool's f-string interpolations: the raw
text for strings, `repr` for everything else (containers render their
elements with `repr` either way). -/
def pyStr : PyVal → String
  | .str s => s
  | v => pyRepr v

mutual

/-- `ast.unparse` on the expression fragment, used by `dev_tools` only to
produce the display text of Expression bindings (precedence parentheses are
not reconstructed; no claim reads these strings beyond their being opaque
display text). -/
def unparse : PyExpr → String
  | .const v => pyRepr v
  | .listE xs => "[" ++ joinComma (unparseList xs) ++ "]"
  | .tupleE xs =>
    (match unparseList xs with
     | [x] => "(" ++ x ++ ",)"
     | ys => "(" ++ joinComma ys ++ ")")
  | .dictE ks vs => "\x7b" ++ joinPairs (unparseList ks) (unparseList vs) ++ "\x7d"
  | .usub e => "-" ++ unparse e
  | .name id => id
  | .attrE obj f => unparse obj ++ "." ++ f
  | .binop l op r => unparse l ++ " " ++ op ++ " " ++ unparse r
  | .call fn argsE => unparse fn ++ "(" ++ joinComma (unparseList argsE) ++ ")"
  | .otherExpr src => src

/-- `unparse` over element lists. -/
def unparseList : List PyExpr → List String
  | [] => []
  | e :: es => unparse e :: unparseList es

end

/-! ### Shared records and the insertion-ordered dict -/

/-- One extracted binding, the tuple
`(var_name, value, line_num, col_offset, is_expression)` both
implementations build. -/
structure ExtractedVar where
  var_name : String
  value : PyVal
  line_num : Nat
  col_offset : Nat
  is_expression : Bool

/-- One configuration record, `{value, type, arg, line}` as placed into
`config_data[filename][var_name]`. -/
structure ConfigEntry where
  value : PyVal
  type : String
  arg : String
  line : Nat

/-- Python dict assignment `d[k] = v`: an existing key keeps its position
and gets the new value, a new key is appended. -/
def dictInsert {α : Type} (d : List (String × α)) (k : String) (v : α) :
    List (String × α) :=
  if d.any (fun p => p.1 == k) then
    d.map (fun p => if p.1 == k then (k, v) else p)
  else d ++ [(k, v)]

/-- Python dict lookup `d.get(k)`. -/
def dictLookup {α : Type} (d : List (String × α)) (k : String) : Option α :=
  (d.find? (fun p => p.1 == k)).map Prod.snd

/-- The shape both config builders share: fold the extracted bindings in
order, inserting an entry for each accepted one. -/
def configFold (accept : ExtractedVar → Bool) (mk : ExtractedVar → ConfigEntry)
    (vars : List ExtractedVar) : List (String × ConfigEntry) :=
  vars.foldl (fun d v => if accept v then dictInsert d v.var_name (mk v) else d) []

/-- `type(value).__name__` for the modelled values. -/
def typeName : PyVal → String
  | .bool _ => "bool"
  | .int _ => "int"
  | .float _ => "float"
  | .str _ => "str"
  | .list _ => "list"
  | .tuple _ => "tuple"
  | .dict _ _ => "dict"
  | .noneV => "NoneType"

/-! ## The `commands/dev_tools.py` implementation -/

namespace dev

/-- The body of `_extract_variables_from_file`'s statement loop for one
`ast.Assign` node: single `Name` targets only, `_`-prefixed names skipped;
a plain constant is taken as-is, a display is `literal_eval`ed with an
`unparse` fallback marking an expression, a unary minus is `literal_eval`ed
with failure leaving the value unset, everything else is an expression
rendered by `unparse`; the binding is kept only when the resulting value is
not `None`. -/
def extractAssign (a : PyAssign) : Option ExtractedVar :=
  match a.targets with
  | [PyTarget.name var_name] =>
    if pStartsWith var_name "_" then none
    else
      let step : Option PyVal × Bool :=
        match a.value with
        | .const c => (some c, false)
        | .listE _ | .tupleE _ | .dictE _ _ =>
          match literalEval a.value with
          | some v => (some v, false)
          | none => (some (PyVal.str (unparse a.value)), true)
        | .usub _ => (literalEval a.value, false)
        | _ => (some (PyVal.str (unparse a.value)), true)
      match step with
      | (some PyVal.noneV, _) => none
      | (some v, is_expr) => some ⟨var_name, v, a.lineno, a.col_offset, is_expr⟩
      | (none, _) => none
  | _ => none

/-- The loop of `_extract_variables_from_file` over `tree.body`: only
top-level statements are visited. -/
def extractTopLevel (m : PyModule) : List ExtractedVar :=
  m.body.filterMap fun st =>
    match st with
    | .assign a => extractAssign a
    | _ => none

/-- `_extract_variables_from_file`: a file whose read or parse raises
(`SyntaxError`, any other exception) yields `[]` after a diagnostic. -/
def extract_variables_from_file (parsed : Except String PyModule) :
    List ExtractedVar :=
  match parsed with
  | .error _ => []
  | .ok m => extractTopLevel m

/-- The entry `_prepare_config_data` builds for one configurable variable:
the raw identifier with a `--` prefix as the flag. -/
def mkEntry (v : ExtractedVar) : ConfigEntry :=
  { value := v.value, type := typeName v.value, line := v.line_num,
    arg := "--" ++ v.var_name }

/-- `_prepare_config_data`: per file, every non-expression binding becomes
an entry keyed by its identifier (dict overwrite on rebinding). -/
def prepare_config_data (extracted_vars : List (String × List ExtractedVar)) :
    List (String × List (String × ConfigEntry)) :=
  extracted_vars.map fun p =>
    (p.1, configFold (fun v => !v.is_expression) mkEntry p.2)

/-- The scan of `_find_insertion_point`: state `(insert_line, in_docstring,
docstring_quote)` over the numbered lines, stopping at the first
non-import, non-comment, non-blank, non-docstring line. -/
def findInsertAux : List String → Nat → Nat → Bool → Option String → Nat
  | [], _, insert_line, _, _ => insert_line
  | line :: rest, i, insert_line, in_docstring, quote =>
    let stripped := pstrip line
    if in_docstring then
      match quote with
      | some q =>
        if hasSubstr stripped q then findInsertAux rest (i + 1) insert_line false none
        else findInsertAux rest (i + 1) insert_line true quote
      | none => findInsertAux rest (i + 1) insert_line true none
    else
      if pStartsWith stripped "\"\"\"" || pStartsWith stripped "'''" then
        let q := if pStartsWith stripped "\"\"\"" then "\"\"\"" else "'''"
        if countSubstr stripped q ≥ 2 then
          findInsertAux rest (i + 1) insert_line false none
        else findInsertAux rest (i + 1) insert_line true (some q)
      else if stripped == "" || pStartsWith stripped "#" then
        findInsertAux rest (i + 1) insert_line false none
      else if pStartsWith stripped "import " || pStartsWith stripped "from " then
        findInsertAux rest (i + 1) (i + 1) false none
      else insert_line

/-- `_find_insertion_point`. -/
def find_insertion_point (lines : List String) : Nat :=
  findInsertAux lines 0 0 false none

/-- One `parser.add_argument` line of `_generate_argparse_code`. -/
def argLine (v : ExtractedVar) : String :=
  let tn := typeName v.value
  if tn == "bool" then
    "parser.add_argument(\"--" ++ v.var_name ++
      "\", type=lambda x: x.lower() in [\"true\", \"1\", \"yes\", \"y\"], default=" ++
      pyStr v.value ++ ", help=\"Default: " ++ pyStr v.value ++ "\")\n"
  else if tn == "int" || tn == "float" then
    "parser.add_argument(\"--" ++ v.var_name ++ "\", type=" ++ tn ++
      ", default=" ++ pyStr v.value ++ ", help=\"Default: " ++ pyStr v.value ++ "\")\n"
  else
    let default_repr :=
      if !v.is_expression then pyRepr v.value
      else "\"" ++ pyStr v.value ++ "\""
    "parser.add_argument(\"--" ++ v.var_name ++ "\", type=str, default=" ++
      default_repr ++ ", help=\"Default: " ++ pyStr v.value ++ "\")\n"

/-- `_generate_argparse_code`: the header lines, one option per variable in
order, and the closing `parse_args` line. -/
def generate_argparse_code (extracted_vars : List ExtractedVar) : List String :=
  ["\n", "# Auto-generated argument parsing\n", "import argparse\n",
    "parser = argparse.ArgumentParser(description=\"Configurable script\")\n"]
  ++ extracted_vars.map argLine
  ++ ["args = parser.parse_args()\n\n"]

mutual

/-- The `ast.Assign` nodes `ast.walk` visits inside one statement: the
statement itself and, through function and class bodies, every nested one.
(`ast.walk` enumerates breadth-first; only which nodes are visited matters
to the rewriter -- each visited assignment rewrites its own source line --
so a depth-first enumeration is used, which orders siblings identically.) -/
def stmtAssigns : PyStmt → List PyAssign
  | .assign a => [a]
  | .funcDef _ body => stmtListAssigns body
  | .classDef _ body => stmtListAssigns body
  | .otherStmt => []

/-- `stmtAssigns` over a statement list. -/
def stmtListAssigns : List PyStmt → List PyAssign
  | [] => []
  | s :: rest => stmtAssigns s ++ stmtListAssigns rest

end

/-- All `ast.Assign` nodes of the whole tree, as `ast.walk` finds them. -/
def walkAssigns (m : PyModule) : List PyAssign :=
  stmtListAssigns m.body

/-- One iteration of `_modify_file_for_argparse`'s replacement loop: adjust
the recorded line by the insertion offset, and when the line still holds an
`=`, overwrite it with `<indent><name> = args.<name>` (spaces for the
original indentation width; any inline comment is dropped with the rest of
the line). -/
def replaceOne (ls : List String) (line_offset : Nat) (p : String × Nat) :
    List String :=
  let adjusted := p.2 + line_offset - 1
  if h : adjusted < ls.length then
    let original_line := ls.get ⟨adjusted, h⟩
    if hasSubstr original_line "=" then
      let indent_str := String.mk (List.replicate (lstripLen original_line) ' ')
      ls.set adjusted (indent_str ++ p.1 ++ " = args." ++ p.1 ++ "\n")
    else ls
  else ls

/-- `_modify_file_for_argparse` on a file's lines and its parsed tree:
`none` models returning `False` (nothing written); `some` is the new line
list that is written back.  The assignments to rewrite are collected by
`ast.walk` over the whole tree, filtered only by target shape and by the
configurable names. -/
def modify_file_for_argparse (lines : List String) (m : PyModule)
    (extracted_vars : List ExtractedVar) : Option (List String) :=
  let configurable_vars := extracted_vars.filter (fun v => !v.is_expression)
  if configurable_vars.isEmpty then none
  else
    let configurable_var_names := configurable_vars.map (·.var_name)
    let assignments_to_modify := (walkAssigns m).filterMap fun a =>
      match a.targets with
      | [PyTarget.name var_name] =>
        if configurable_var_names.contains var_name then some (var_name, a.lineno)
        else none
      | _ => none
    if assignments_to_modify.isEmpty then none
    else
      let insert_line := find_insertion_point lines
      let argparse_code := generate_argparse_code
        (configurable_vars.map fun v => { v with is_expression := false })
      let lines1 := lines.take insert_line ++ argparse_code ++ lines.drop insert_line
      let line_offset := argparse_code.length
      some (assignments_to_modify.foldl (fun ls p => replaceOne ls line_offset p) lines1)

/-- A directory entry as `extract_and_link_fields_command` reads it: the
filename, the read-and-parse outcome, and the raw lines. -/
structure SourceFile where
  filename : String
  parsed : Except String PyModule
  lines : List String

/-- The extraction loop of `extract_and_link_fields_command`: files whose
extraction yields no bindings are left out of `extracted_vars`. -/
def extractPhase (files : List SourceFile) : List (String × List ExtractedVar) :=
  files.foldl (fun acc f =>
    let file_vars := extract_variables_from_file f.parsed
    if file_vars.isEmpty then acc else acc ++ [(f.filename, file_vars)]) []

/-- The modification loop of `extract_and_link_fields_command`: which files
are written (modified), in directory order.  A file absent from
`extracted_vars` is skipped; a file whose re-parse raises has the exception
caught inside `_modify_file_for_argparse`, returning `False`. -/
def modifiedFiles (files : List SourceFile) : List String :=
  let extracted_vars := extractPhase files
  files.filterMap fun f =>
    match dictLookup extracted_vars f.filename with
    | none => none
    | some vars =>
      match f.parsed with
      | .error _ => none
      | .ok m =>
        if (modify_file_for_argparse f.lines m vars).isSome then some f.filename
        else none

end dev

/-! ## The `sim_manager.py` implementation -/

namespace sim

/-- The flag computed at line 292: `is_expression = not isinstance(node.value,
(ast.Constant, ast.List, ast.Dict, ast.Tuple))`. -/
def isExpressionNode : PyExpr → Bool
  | .const _ | .listE _ | .dictE _ _ | .tupleE _ => false
  | _ => true

/-- The target loop of the extraction (lines 272-294): every `Name` target of
the assignment (multi-target assignments contribute each name), `_`-prefixed
names skipped; the value is `ast.literal_eval`'s result, falling back on the
source segment of the expression (or `"<complex_expression>"` when
unavailable). -/
def extractAssign (a : PyAssign) : List ExtractedVar :=
  a.targets.filterMap fun t =>
    match t with
    | PyTarget.name var_name =>
      if pStartsWith var_name "_" then none
      else
        let value :=
          match literalEval a.value with
          | some v => v
          | none => PyVal.str (a.valueSrc.getD "<complex_expression>")
        some ⟨var_name, value, a.lineno, a.col_offset, isExpressionNode a.value⟩
    | PyTarget.otherTarget => none

/-- The statement loop over `tree.body` (line 270): top level only. -/
def extractTopLevel (m : PyModule) : List ExtractedVar :=
  m.body.foldr (fun st acc =>
    (match st with
     | .assign a => extractAssign a
     | _ => []) ++ acc) []

/-- The string heuristic of lines 320-322 (and again 361): a string value
that starts with `<` or holds `math.` or an arithmetic operator or bracket
character is treated as a residual expression. -/
def strLooksExpr (s : String) : Bool :=
  pStartsWith s "<" ||
    ["math.", "+", "-", "*", "/", "(", ")", "[", "]"].any (fun op => hasSubstr s op)

/-- The skip applied to a value in the config loop: only string values are
subject to the heuristic. -/
def skipValue : PyVal → Bool
  | .str s => strLooksExpr s
  | _ => false

/-- Lines 326-332: `bool` before `int` before `float`, everything else
`"str"`. -/
def typeTag : PyVal → String
  | .bool _ => "bool"
  | .int _ => "int"
  | .float _ => "float"
  | _ => "str"

/-- Line 334 (also 443-453): `var_name.lower().replace('_', '-')`. -/
def arg_name (var_name : String) : String :=
  pyReplace (pyLower var_name) "_" "-"

/-- Line 494: the attribute used on the parsed-argument object,
`var_name.lower().replace('_', '-').replace('-', '_')`. -/
def arg_attr (var_name : String) : String :=
  pyReplace (pyReplace (pyLower var_name) "_" "-") "-" "_"

/-- The config loop body accepts a binding when it is not an expression and
its value does not trip the string heuristic. -/
def accept (v : ExtractedVar) : Bool :=
  !v.is_expression && !skipValue v.value

/-- The entry built at lines 336-341. -/
def mkEntry (v : ExtractedVar) : ConfigEntry :=
  { value := v.value, type := typeTag v.value,
    arg := "--" ++ arg_name v.var_name, line := v.line_num }

/-- The per-file config dict of lines 313-341. -/
def prepareConfigOfFile (vars_list : List ExtractedVar) :
    List (String × ConfigEntry) :=
  configFold accept mkEntry vars_list

/-- A directory entry as the command reads it: filename, the combined
read-and-parse outcome, and whether the second pass's file I/O (re-read and
final write) succeeds if attempted. -/
structure SimFile where
  filename : String
  parsed : Except String PyModule
  ioOk : Bool

/-- The extraction loop (lines 260-305): a file whose read or parse raises
gets a diagnostic and is left out; a file with no extracted variables is
also left out of `extracted_vars`. -/
def extractPhase (files : List SimFile) : List (String × List ExtractedVar) :=
  files.foldl (fun acc f =>
    match f.parsed with
    | .error _ => acc
    | .ok m =>
      let file_vars := extractTopLevel m
      if file_vars.isEmpty then acc else acc ++ [(f.filename, file_vars)]) []

/-- Lines 311-341: `config_data`, one (possibly empty) per-file dict for
every file of `extracted_vars`. -/
def configDataOf (extracted_vars : List (String × List ExtractedVar)) :
    List (String × List (String × ConfigEntry)) :=
  extracted_vars.map fun p => (p.1, prepareConfigOfFile p.2)

/-- Line 354's sort of the file's bindings by declaration line (Python's
stable `sorted`). -/
def sortByLine (vars_list : List ExtractedVar) : List ExtractedVar :=
  vars_list.mergeSort (fun a b => a.line_num ≤ b.line_num)

/-- Lines 356-363: the configurable subset the modification pass uses (same
expression/heuristic filter as the config loop). -/
def configurableOf (vars_list : List ExtractedVar) : List ExtractedVar :=
  (sortByLine vars_list).filter accept

/-- Line 504-505: the inline comment kept by the rewrite -- two spaces and
the text from the first `#` to the end of the line (`re.search(r'#.*$')`,
the trailing newline excluded). -/
def commentOf (old_line : String) : String :=
  match old_line.data.dropWhile (fun c => !(c == '#')) with
  | [] => ""
  | t =>
    "  " ++ String.mk (if t.getLast? == some '\n' then t.dropLast else t)

/-- Lines 497-508: the replacement text for one configurable binding's line,
keeping the original leading whitespace and any inline comment, and reading
the value off `args` via `arg_attr`. -/
def newAssignLine (old_line var_name : String) : String :=
  let indent := String.mk (old_line.data.takeWhile Char.isWhitespace)
  indent ++ var_name ++ " = args." ++ arg_attr var_name ++ commentOf old_line ++ "\n"

/-- What the modification pass does to one file (lines 346-525), at the
granularity the claims need: skipped when absent from `extracted_vars`;
otherwise any I/O failure is caught per file; a file with no configurable
bindings is reported and left unwritten; otherwise the file is rewritten.
(The insertion machinery between the guards is elided here; `ioOk` stands
for the pass's re-read and final write both succeeding.) -/
inductive ModifyResult where
  | skippedNotExtracted
  | errorCaught
  | noConfigurable
  | modified

/-- The per-file body of the modification loop. -/
def modifyOne (extracted_vars : List (String × List ExtractedVar))
    (f : SimFile) : ModifyResult :=
  match dictLookup extracted_vars f.filename with
  | none => .skippedNotExtracted
  | some vars_list =>
    if !f.ioOk then .errorCaught
    else if (configurableOf vars_list).isEmpty then .noConfigurable
    else .modified

/-- The ways the whole process dies inside the command: the two path checks
call `sys.exit(1)` (lines 240-246); `sorted(directory.glob("*.py"))` (line
249) and the final `create_manager_script` call (line 551: the manifest
serialization and the `open(manager_path, 'w')` write at 560-563; only the
`chmod` is wrapped) run outside any `try`/`except`, so an exception there
propagates uncaught and also kills the process. -/
inductive Fatal where
  | dirNotExists
  | notADirectory
  | globRaised
  | managerWriteRaised

/-- The command's input: the two directory predicates, whether the glob
itself succeeds, the files it finds in sorted order, and whether
`create_manager_script` (serialization plus the `manager.py` write)
completes without raising, should it be reached. -/
structure DirRequest where
  dirExists : Bool
  isDirectory : Bool
  globOk : Bool
  files : List SimFile
  managerWriteOk : Bool

/-- What a completed (non-fatal) run of the command produced. -/
structure RunSummary where
  extracted_vars : List (String × List ExtractedVar)
  config_data : List (String × List (String × ConfigEntry))
  results : List (String × ModifyResult)

/-- `extract_and_link_fields_command` (lines 236-552): `sys.exit(1)` for a
missing or non-directory path; an uncaught exception if the glob raises; an
early (non-fatal) return when the glob finds no files or extraction finds no
variables; otherwise the extraction pass, the config dict and the per-file
modification pass run -- every per-file failure caught inside its own
iteration -- and then `create_manager_script` is called outside any
`try`/`except`, so its failure kills the process after the per-file
modifications were already applied. -/
def extract_and_link_fields_command (req : DirRequest) :
    Except Fatal RunSummary :=
  if !req.dirExists then .error .dirNotExists
  else if !req.isDirectory then .error .notADirectory
  else if !req.globOk then .error .globRaised
  else if req.files.isEmpty then
    .ok { extracted_vars := [], config_data := [], results := [] }
  else
    let extracted_vars := extractPhase req.files
    if extracted_vars.isEmpty then
      .ok { extracted_vars := [], config_data := [], results := [] }
    else
      let results := req.files.map fun f => (f.filename, modifyOne extracted_vars f)
      if !req.managerWriteOk then .error .managerWriteRaised
      else .ok { extracted_vars := extracted_vars,
                 config_data := configDataOf extracted_vars,
                 results := results }

/-- Whether the command exits fatally. -/
def isFatal : Except Fatal RunSummary → Bool
  | .error _ => true
  | .ok _ => false

end sim

/-! ## The generated launcher (`create_manager_script`, lines 555-702) -/

namespace launcher

def managerHead : String :=
  "#!/usr/bin/env python3\n" ++
  "\"\"\"\n" ++
  "Interactive Manager for Simulation Scripts\n" ++
  "Auto-generated by sim_manager.py\n" ++
  "Contains embedded configuration from value.txt\n" ++
  "\"\"\"\n" ++
  "\n" ++
  "import subprocess\n" ++
  "import sys\n" ++
  "from pathlib import Path\n" ++
  "\n" ++
  "\n" ++
  "# Embedded configuration (auto-generated from value.txt)\n" ++
  "CONFIG = "

def managerTail : String :=
  "\n" ++
  "\n" ++
  "\n" ++
  "def load_config():\n" ++
  "    \"\"\"Load embedded configuration\"\"\"\n" ++
  "    return CONFIG\n" ++
  "\n" ++
  "\n" ++
  "def get_user_input(prompt, default_value, var_type):\n" ++
  "    \"\"\"Get user input with default value support\"\"\"\n" ++
  "    type_hint = f\" (\x7bvar_type\x7d)\" if var_type != \"str\" else \"\"\n" ++
  "    user_input = input(f\"\x7bprompt\x7d\x7btype_hint\x7d [\x7bdefault_value\x7d]: \").strip()\n" ++
  "    \n" ++
  "    if not user_input:\n" ++
  "        return default_value\n" ++
  "    \n" ++
  "    # Convert to appropriate type\n" ++
  "    if var_type == \"int\":\n" ++
  "        try:\n" ++
  "            return int(user_input)\n" ++
  "        except ValueError:\n" ++
  "            print(f\"Invalid integer, using default: \x7bdefault_value\x7d\")\n" ++
  "            return default_value\n" ++
  "    elif var_type == \"float\":\n" ++
  "        try:\n" ++
  "            return float(user_input)\n" ++
  "        except ValueError:\n" ++
  "            print(f\"Invalid float, using default: \x7bdefault_value\x7d\")\n" ++
  "            return default_value\n" ++
  "    elif var_type == \"bool\":\n" ++
  "        if user_input.lower() in ['true', '1', 'yes', 'y']:\n" ++
  "            return True\n" ++
  "        elif user_input.lower() in ['false', '0', 'no', 'n']:\n" ++
  "            return False\n" ++
  "        else:\n" ++
  "            print(f\"Invalid boolean, using default: \x7bdefault_value\x7d\")\n" ++
  "            return default_value\n" ++
  "    else:\n" ++
  "        return user_input\n" ++
  "\n" ++
  "\n" ++
  "def main():\n" ++
  "    config = load_config()\n" ++
  "    \n" ++
  "    # List available scripts\n" ++
  "    print(\"=\" * 60)\n" ++
  "    print(\"  Simulation Manager - Interactive Script Executor\")\n" ++
  "    print(\"=\" * 60)\n" ++
  "    print(\"\\nAvailable Python scripts:\")\n" ++
  "    print()\n" ++
  "    \n" ++
  "    script_list = sorted(config.keys())\n" ++
  "    for i, script_name in enumerate(script_list, 1):\n" ++
  "        var_count = len(config[script_name])\n" ++
  "        print(f\"  \x7bi\x7d. \x7bscript_name\x7d (\x7bvar_count\x7d configurable variables)\")\n" ++
  "    \n" ++
  "    print()\n" ++
  "    \n" ++
  "    # Get script selection\n" ++
  "    while True:\n" ++
  "        choice = input(f\"Select script to run (1-\x7blen(script_list)\x7d) or 'q' to quit: \").strip()\n" ++
  "        if choice.lower() == 'q':\n" ++
  "            print(\"Exiting...\")\n" ++
  "            sys.exit(0)\n" ++
  "        \n" ++
  "        try:\n" ++
  "            choice_num = int(choice)\n" ++
  "            if 1 <= choice_num <= len(script_list):\n" ++
  "                selected_script = script_list[choice_num - 1]\n" ++
  "                break\n" ++
  "            else:\n" ++
  "                print(f\"Please enter a number between 1 and \x7blen(script_list)\x7d\")\n" ++
  "        except ValueError:\n" ++
  "            print(\"Invalid input. Please enter a number or 'q'\")\n" ++
  "    \n" ++
  "    print()\n" ++
  "    print(f\"Selected: \x7bselected_script\x7d\")\n" ++
  "    print(\"-\" * 60)\n" ++
  "    \n" ++
  "    # Get variable values\n" ++
  "    script_config = config[selected_script]\n" ++
  "    args = []\n" ++
  "    \n" ++
  "    if script_config:\n" ++
  "        print(\"\\nConfigure variables (press Enter to use default):\")\n" ++
  "        print()\n" ++
  "        \n" ++
  "        for var_name, var_info in sorted(script_config.items(), key=lambda x: x[1]['line']):\n" ++
  "            default_value = var_info['value']\n" ++
  "            var_type = var_info['type']\n" ++
  "            arg_flag = var_info['arg']\n" ++
  "            \n" ++
  "            user_value = get_user_input(f\"  \x7bvar_name\x7d\", default_value, var_type)\n" ++
  "            \n" ++
  "            # Only add argument if different from default\n" ++
  "            if user_value != default_value:\n" ++
  "                args.append(arg_flag)\n" ++
  "                args.append(str(user_value))\n" ++
  "    \n" ++
  "    # Execute the script\n" ++
  "    print()\n" ++
  "    print(\"-\" * 60)\n" ++
  "    print(f\"Executing: \x7bselected_script\x7d\")\n" ++
  "    if args:\n" ++
  "        print(f\"Arguments: \x7b' '.join(args)\x7d\")\n" ++
  "    print(\"-\" * 60)\n" ++
  "    print()\n" ++
  "    \n" ++
  "    script_path = Path(__file__).parent / selected_script\n" ++
  "    \n" ++
  "    try:\n" ++
  "        result = subprocess.run(\n" ++
  "            [sys.executable, str(script_path)] + args,\n" ++
  "            check=False\n" ++
  "        )\n" ++
  "        \n" ++
  "        print()\n" ++
  "        print(\"-\" * 60)\n" ++
  "        if result.returncode == 0:\n" ++
  "            print(f\"✓ \x7bselected_script\x7d completed successfully\")\n" ++
  "        else:\n" ++
  "            print(f\"✗ \x7bselected_script\x7d exited with code \x7bresult.returncode\x7d\")\n" ++
  "        print(\"-\" * 60)\n" ++
  "        \n" ++
  "    except Exception as e:\n" ++
  "        print(f\"Error executing script: \x7be\x7d\")\n" ++
  "        sys.exit(1)\n" ++
  "\n" ++
  "\n" ++
  "if __name__ == '__main__':\n" ++
  "    main()\n"

/-- The whole text `create_manager_script` writes: the fixed head, the
embedded serialized manifest interpolated after `CONFIG = `, and the fixed
tail. -/
def managerContent (config_str : String) : String :=
  managerHead ++ config_str ++ managerTail

/-- `create_manager_script` on the target directory, the directory modelled
as its filename-to-content map: `open(manager_path, 'w')` truncates and
rewrites `manager.py` unconditionally (the best-effort `chmod` carries no
file content and is not modelled). -/
def create_manager_script (directory : List (String × String))
    (config_str : String) : List (String × String) :=
  dictInsert directory "manager.py" (managerContent config_str)

/-- What one run of the generated `main()` does once a script is selected
and the prompts are answered (the tail of `main`, manager lines 676-694 of
`sim_manager.py`): the subprocess call it issues.  `script_path` is the
launcher file's own directory joined with the selected name, and
`subprocess.run` is called without a `cwd` argument, so the child inherits
whatever directory the launcher process was started in. -/
structure SubprocessCall where
  argv : List String
  cwd : Option String

/-- The call `subprocess.run([sys.executable, str(script_path)] + args,
check=False)` issues. -/
def runCall (python_exe manager_dir selected_script : String)
    (args : List String) : SubprocessCall :=
  { argv := [python_exe, manager_dir ++ "/" ++ selected_script] ++ args,
    cwd := none }

/-- How `main()` ends after the call: when `subprocess.run` returns (child
spawned, any return code), `main` prints the code and falls through its end;
when spawning raises, the handler calls `sys.exit(1)`. -/
inductive MainEnd where
  | fellThrough
  | sysExit (code : Int)

/-- `spawn` is `some rc` when the child ran and returned `rc`, `none` when
spawning raised. -/
def mainEnd (spawn : Option Int) : MainEnd :=
  match spawn with
  | some _ => .fellThrough
  | none => .sysExit 1

/-- The launcher process's own exit code for each way `main` ends: a Python
process whose `main()` returns normally exits 0. -/
def processExitCode : MainEnd → Int
  | .fellThrough => 0
  | .sysExit c => c

/-- The launcher's exit code as a function of the spawn outcome. -/
def launcherExitCode (spawn : Option Int) : Int :=
  processExitCode (mainEnd spawn)

end launcher

end Sim2Cfg

namespace Sim2Cfg

/-! ### The spec's flag derivation, and concrete inputs used by the claims -/

/-- Modelled from the spec's words (spec 4.2), for comparison with the
source's derivations: lower-case the identifier and replace internal
underscores with hyphens. -/
def flagNameSpec (nm : String) : String :=
  pyReplace (pyLower nm) "_" "-"

/-- The per-file modification result the command reports for one filename,
`none` when the run was fatal or the file is not among the results. -/
def sim.resultFor (req : sim.DirRequest) (nm : String) :
    Option sim.ModifyResult :=
  match sim.extract_and_link_fields_command req with
  | .error _ => none
  | .ok s => dictLookup s.results nm

/-- A file whose only top-level binding is shadowed by a same-named local
assignment inside a function body. -/
def exampleNestedLines : List String :=
  ["WIDTH = 10\n", "def f():\n", "    WIDTH = 5\n"]

/-- The parse tree of `exampleNestedLines`. -/
def exampleNestedModule : PyModule :=
  ⟨[.assign ⟨[.name "WIDTH"], .const (.int 10), some "10", 1, 0⟩,
    .funcDef "f"
      [.assign ⟨[.name "WIDTH"], .const (.int 5), some "5", 3, 4⟩]]⟩

/-- A file that rebinds `X` at module scope: `X = 1` then `X = 2`. -/
def exampleReboundModule : PyModule :=
  ⟨[.assign ⟨[.name "X"], .const (.int 1), some "1", 1, 0⟩,
    .assign ⟨[.name "X"], .const (.int 2), some "2", 2, 0⟩]⟩

/-- A file with a negated numeric constant binding, `X = -5`. -/
def exampleNegModule : PyModule :=
  ⟨[.assign ⟨[.name "X"], .usub (.const (.int 5)), some "-5", 1, 0⟩]⟩

/-- A parseable file with no top-level assignment. -/
def exampleEmptyModule : PyModule :=
  ⟨[.funcDef "main" [.otherStmt]]⟩

/-- A file with three literal assignments on lines 1-3. -/
def exampleThreeModule : PyModule :=
  ⟨[.assign ⟨[.name "X"], .const (.int 1), some "1", 1, 0⟩,
    .assign ⟨[.name "Y"], .const (.int 2), some "2", 2, 0⟩,
    .assign ⟨[.name "Z"], .const (.int 3), some "3", 3, 0⟩]⟩

/-- Scenario C's directory for the `sim_manager` pipeline: `a.py` with no
top-level assignments, `b.py` with three literal assignments. -/
def exampleDirFiles : List sim.SimFile :=
  [⟨"a.py", .ok exampleEmptyModule, true⟩,
   ⟨"b.py", .ok exampleThreeModule, true⟩]

/-- The same directory for the `dev_tools` pipeline, with the files' lines. -/
def exampleDevDirFiles : List dev.SourceFile :=
  [⟨"a.py", .ok exampleEmptyModule, ["def main():\n", "    pass\n"]⟩,
   ⟨"b.py", .ok exampleThreeModule, ["X = 1\n", "Y = 2\n", "Z = 3\n"]⟩]

/-- A file as it stands after the tool rewrote it: the binding reads
`X = args.x` off the parsed-argument object. -/
def exampleRewrittenModule : PyModule :=
  ⟨[.assign ⟨[.name "X"], .attrE (.name "args") "x", some "args.x", 1, 0⟩]⟩

end Sim2Cfg

namespace Sim2Cfg

/-! ## Lemmas about the insertion-ordered dict and the config fold -/

theorem dictLookup_dictInsert {α : Type} (d : List (String × α)) (k k' : String) (v : α) :
    dictLookup (dictInsert d k v) k' = if k' = k then some v else dictLookup d k' := by
  unfold dictInsert
  by_cases h : d.any (fun p => p.1 == k) = true
  · simp only [h, if_true]
    have hpred : (fun p : String × α => p.1 == k') ∘
        (fun p : String × α => if p.1 == k then (k, v) else p)
        = fun p : String × α => p.1 == k' := by
      funext p
      by_cases hp : (p.1 == k) = true
      · have hp' : p.1 = k := eq_of_beq hp
        simp [hp, hp']
      · have hp' : p.1 ≠ k := by simpa using hp
        simp [hp, hp']
    unfold dictLookup
    rw [List.find?_map, hpred]
    by_cases hk : k' = k
    · rw [if_pos hk]
      have h' : (d.any fun p => p.1 == k') = true := by rw [hk]; exact h
      have hs : (List.find? (fun p : String × α => p.1 == k') d).isSome := by
        rw [List.find?_isSome]
        exact List.any_eq_true.mp h'
      rcases Option.isSome_iff_exists.mp hs with ⟨q0, hq0⟩
      have hq0k : (q0.1 == k') = true := by simpa using List.find?_some hq0
      have hq0keq : q0.1 = k := (eq_of_beq hq0k).trans hk
      simp [hq0, hq0keq]
    · rw [if_neg hk]
      cases hf : List.find? (fun p : String × α => p.1 == k') d with
      | none => simp
      | some q0 =>
        have hq0k : (q0.1 == k') = true := by simpa using List.find?_some hf
        have hne : q0.1 ≠ k := by
          rw [eq_of_beq hq0k]
          exact hk
        simp [hne]
  · rw [Bool.not_eq_true] at h
    simp only [h, Bool.false_eq_true, if_false]
    unfold dictLookup
    rw [List.find?_append]
    by_cases hk : k' = k
    · rw [if_pos hk]
      have hnone : List.find? (fun p : String × α => p.1 == k') d = none := by
        rw [List.find?_eq_none]
        intro p hp
        rw [hk]
        simpa using (List.any_eq_false.mp h) p hp
      have hone : List.find? (fun p : String × α => p.1 == k') [(k, v)]
          = some (k, v) :=
        List.find?_cons_of_pos _ (by simp [hk])
      simp [hnone, hone]
    · rw [if_neg hk]
      have hone : List.find? (fun p : String × α => p.1 == k') [(k, v)] = none :=
        List.find?_cons_of_neg _
          (by simp only [beq_iff_eq]; exact fun hh => hk hh.symm)
      simp [hone]

theorem dictLookup_dictInsert_self {α : Type} (d : List (String × α)) (k : String) (v : α) :
    dictLookup (dictInsert d k v) k = some v := by
  simp [dictLookup_dictInsert]

/-- Looking a name up in a config fold finds the entry of the last accepted
binding with that name (Python dict overwrite keeps the latest value), and
nothing when no binding with that name is accepted. -/
theorem dictLookup_configFold (accept : ExtractedVar → Bool)
    (mk : ExtractedVar → ConfigEntry) (vars : List ExtractedVar) (k : String) :
    dictLookup (configFold accept mk vars) k
      = (vars.reverse.find? (fun v => v.var_name == k && accept v)).map mk := by
  have aux : ∀ (vs : List ExtractedVar) (d : List (String × ConfigEntry)),
      dictLookup (vs.foldl (fun d v =>
          if accept v then dictInsert d v.var_name (mk v) else d) d) k
        = ((vs.reverse.find? (fun v => v.var_name == k && accept v)).map mk).or
            (dictLookup d k) := by
    intro vs
    induction vs with
    | nil => intro d; simp
    | cons v rest ih =>
      intro d
      rw [List.foldl_cons, ih]
      rw [List.reverse_cons, List.find?_append]
      cases hfind : rest.reverse.find? (fun v => v.var_name == k && accept v) with
      | some u => simp
      | none =>
        simp only [Option.map_none', Option.none_or]
        by_cases hacc : accept v = true
        · by_cases hname : (v.var_name == k) = true
          · have hk : v.var_name = k := eq_of_beq hname
            have hone : List.find? (fun w => w.var_name == k && accept w) [v] = some v :=
              List.find?_cons_of_pos _ (by simp [hname, hacc])
            simp [hacc, hone, hk, dictLookup_dictInsert_self]
          · have hnone : List.find? (fun w => w.var_name == k && accept w) [v] = none :=
              List.find?_cons_of_neg _ (by simp [hname])
            have hvne : v.var_name ≠ k := by simpa using hname
            simp only [hacc, if_true, hnone, Option.map_none', Option.none_or]
            rw [dictLookup_dictInsert, if_neg (fun hh : k = v.var_name => hvne hh.symm)]
        · rw [Bool.not_eq_true] at hacc
          have hnone : List.find? (fun w => w.var_name == k && accept w) [v] = none :=
              List.find?_cons_of_neg _ (by simp [hacc])
          simp [hacc, hnone]
  have base := aux vars []
  simpa [configFold, dictLookup] using base

end Sim2Cfg

namespace Sim2Cfg

/-! ## Claim C1 -/

/-- C1: the claim says the rewriter changes only top-level Literal assignment
lines and leaves function/class bodies untouched (modulo the inserted
scaffold's constant offset).  Evaluating `_modify_file_for_argparse` on a
file whose function body holds a same-named local assignment shows the code
rewrites that nested line too (`ast.walk` collects assignments at every
depth): output line 8 -- input line 3 shifted by the 6 inserted lines --
reads `    WIDTH = args.WIDTH`, not the original `    WIDTH = 5`. -/
theorem claim1_dev_rewrites_function_body_line :
    (dev.modify_file_for_argparse exampleNestedLines exampleNestedModule
        (dev.extract_variables_from_file (.ok exampleNestedModule))).bind
        (fun ls => ls[8]?) = some "    WIDTH = args.WIDTH\n"
    ∧ exampleNestedLines[2]? = some "    WIDTH = 5\n"
    ∧ some "    WIDTH = args.WIDTH\n" ≠ some "    WIDTH = 5\n" := by
  refine ⟨rfl, rfl, ?_⟩
  decide

/-! ## Claim C2 -/

/-- C2 counterexample: the generated launcher does not exit with the
subprocess's exit code (a child exiting 7 leaves the launcher exiting 0),
and the subprocess call carries no working-directory override (the `cwd`
field is `none`, not the target's own directory). -/
theorem claim2_counterexample :
    launcher.launcherExitCode (some 7) ≠ 7
    ∧ (launcher.runCall "python3" "/sims/demo" "run.py" []).cwd
        ≠ some "/sims/demo" := by
  exact ⟨by decide, by simp [launcher.runCall]⟩

/-- C2 amended: the launcher resolves the target path against its own
directory but issues `subprocess.run` without `cwd` (the child inherits the
launcher's working directory), and after the child finishes -- whatever its
exit code -- `main` falls through and the launcher exits 0; it exits 1 only
when spawning raises. -/
theorem claim2_amended_launcher_run :
    ∀ (python_exe manager_dir selected : String) (args : List String) (rc : Int),
      (launcher.runCall python_exe manager_dir selected args).argv
          = python_exe :: (manager_dir ++ "/" ++ selected) :: args
      ∧ (launcher.runCall python_exe manager_dir selected args).cwd = none
      ∧ launcher.launcherExitCode (some rc) = 0
      ∧ launcher.launcherExitCode none = 1 := by
  intro python_exe manager_dir selected args rc
  exact ⟨rfl, rfl, rfl, rfl⟩

/-! ## Claim C3 -/

/-- C3 counterexample: in a file that rebinds `X` at module scope
(`X = 1` on line 1, `X = 2` on line 2), the claim says `X` is excluded from
configurability; evaluating the `sim_manager` config builder shows `X` gets
a ConfigurationEntry (value and line of the second occurrence). -/
theorem claim3_counterexample :
    dictLookup (sim.prepareConfigOfFile (sim.extractTopLevel exampleReboundModule)) "X"
      = some { value := PyVal.int 2, type := "int", arg := "--x", line := 2 } := by
  rfl

/-- C3 amended: a name rebound at module scope is not excluded; the dict
write keeps the entry of the last accepted occurrence, so whenever some
occurrence of the name is accepted, the config holds the entry built from
the last such occurrence. -/
theorem claim3_amended_last_binding_wins (vars : List ExtractedVar)
    (nm : String) (v : ExtractedVar)
    (h : vars.reverse.find? (fun w => w.var_name == nm && sim.accept w) = some v) :
    dictLookup (sim.prepareConfigOfFile vars) nm = some (sim.mkEntry v) := by
  rw [sim.prepareConfigOfFile, dictLookup_configFold, h]
  rfl

/-- C3 witness: the amended statement at the concrete rebinding file. -/
theorem claim3_witness :
    dictLookup (sim.prepareConfigOfFile (sim.extractTopLevel exampleReboundModule)) "X"
      = some (sim.mkEntry ⟨"X", PyVal.int 2, 2, 0, false⟩) :=
  claim3_amended_last_binding_wins (sim.extractTopLevel exampleReboundModule) "X"
    ⟨"X", PyVal.int 2, 2, 0, false⟩ (by rfl)

end Sim2Cfg

namespace Sim2Cfg

/-- Values of an association list mapped in place leave lookups mapped. -/
theorem dictLookup_mapValues {β γ : Type} (f : β → γ) (l : List (String × β)) (k : String) :
    dictLookup (l.map (fun p => (p.1, f p.2))) k = (dictLookup l k).map f := by
  unfold dictLookup
  rw [List.find?_map]
  have hpred : ((fun p : String × γ => p.1 == k) ∘ (fun p : String × β => (p.1, f p.2)))
      = fun p : String × β => p.1 == k := rfl
  rw [hpred]
  cases l.find? (fun p : String × β => p.1 == k) <;> rfl

/-! ## Claim C4 -/

/-- C4 counterexample: `_prepare_config_data` derives the flag from the raw
identifier, so `MAX_SPEED` registers as `--MAX_SPEED`, not the lower-cased
hyphenated `--max-speed` the claim requires. -/
theorem claim4_counterexample :
    dev.prepare_config_data [("demo.py", [⟨"MAX_SPEED", PyVal.int 3, 1, 0, false⟩])]
      = [("demo.py",
          [("MAX_SPEED",
            { value := PyVal.int 3, type := "int", arg := "--MAX_SPEED", line := 1 })])]
    ∧ "--MAX_SPEED" ≠ "--" ++ flagNameSpec "MAX_SPEED" := by
  refine ⟨rfl, ?_⟩
  decide

/-- C4 amended: the lower-case/hyphen derivation and the `--<flag_name>`
option hold in the `sim_manager` pipeline, where the rewritten line reads
the value off `args.<identifier lower-cased, hyphens mapped back to
underscores>` -- not the original-case identifier; in `dev_tools` both the
registered flag and the rewritten attribute are the raw identifier, with no
lower-casing or hyphenation. -/
theorem claim4_amended_flag_and_attr :
    (∀ (vars : List ExtractedVar) (nm : String) (e : ConfigEntry),
        dictLookup (sim.prepareConfigOfFile vars) nm = some e →
          e.arg = "--" ++ flagNameSpec nm)
    ∧ (∀ nm : String, sim.arg_attr nm = pyReplace (flagNameSpec nm) "-" "_")
    ∧ (∀ old_line nm : String,
        sim.newAssignLine old_line nm
          = String.mk (old_line.data.takeWhile Char.isWhitespace) ++ nm ++ " = args."
              ++ pyReplace (flagNameSpec nm) "-" "_" ++ sim.commentOf old_line ++ "\n")
    ∧ (∀ (extracted_vars : List (String × List ExtractedVar)) (fname : String)
          (cfg : List (String × ConfigEntry)) (nm : String) (e : ConfigEntry),
        dictLookup (dev.prepare_config_data extracted_vars) fname = some cfg →
        dictLookup cfg nm = some e → e.arg = "--" ++ nm) := by
  refine ⟨?_, fun nm => rfl, fun old_line nm => rfl, ?_⟩
  · intro vars nm e h
    rw [sim.prepareConfigOfFile, dictLookup_configFold] at h
    rcases Option.map_eq_some'.mp h with ⟨v, hv, he⟩
    have hp := List.find?_some hv
    simp only [Bool.and_eq_true] at hp
    have hname : v.var_name = nm := eq_of_beq hp.1
    rw [← he]
    simp [sim.mkEntry, sim.arg_name, flagNameSpec, hname]
  · intro extracted_vars fname cfg nm e hcfg he
    unfold dev.prepare_config_data at hcfg
    rw [dictLookup_mapValues] at hcfg
    rcases Option.map_eq_some'.mp hcfg with ⟨vars, _, hv⟩
    rw [← hv, dictLookup_configFold] at he
    rcases Option.map_eq_some'.mp he with ⟨v, hfind, hmk⟩
    have hp := List.find?_some hfind
    simp only [Bool.and_eq_true] at hp
    have hname : v.var_name = nm := eq_of_beq hp.1
    rw [← hmk]
    simp [dev.mkEntry, hname]

/-! ## Claim C5 -/

/-- C5 counterexample: a Literal string value holding an arithmetic operator
(`"a+b"`) still produces a ConfigurationEntry in `_prepare_config_data`
(hence in the manifest it feeds): `dev_tools` has no string heuristic. -/
theorem claim5_counterexample :
    dev.prepare_config_data [("heur.py", [⟨"EXPR_STR", PyVal.str "a+b", 3, 0, false⟩])]
      = [("heur.py",
          [("EXPR_STR",
            { value := PyVal.str "a+b", type := "str", arg := "--EXPR_STR", line := 3 })])] := by
  rfl

/-- C5 amended: the operator/sentinel guard exists only in the `sim_manager`
model builder -- there no accepted entry's value is a rejected string; the
`dev_tools` builder accepts every non-expression binding whatever string it
carries. -/
theorem claim5_amended_guard_sim_only :
    (∀ (vars : List ExtractedVar) (nm : String) (e : ConfigEntry),
        dictLookup (sim.prepareConfigOfFile vars) nm = some e →
          sim.skipValue e.value = false)
    ∧ (∀ (nm s : String) (l c : Nat),
        dictLookup (dev.prepare_config_data
            [("f.py", [⟨nm, PyVal.str s, l, c, false⟩])]) "f.py"
          = some [(nm, dev.mkEntry ⟨nm, PyVal.str s, l, c, false⟩)]) := by
  constructor
  · intro vars nm e h
    rw [sim.prepareConfigOfFile, dictLookup_configFold] at h
    rcases Option.map_eq_some'.mp h with ⟨v, hv, he⟩
    have hp := List.find?_some hv
    simp only [Bool.and_eq_true] at hp
    have hacc : sim.accept v = true := hp.2
    have hskip : sim.skipValue v.value = false := by
      rw [sim.accept, Bool.and_eq_true] at hacc
      simpa using hacc.2
    rw [← he]
    exact hskip
  · intro nm s l c
    rfl

/-! ## Claim C6 -/

/-- C6 counterexample: on `X = -5`, the `sim_manager` classifier evaluates
the value to `-5` but flags the binding as an expression (its node-type test
omits `UnaryOp`), so no entry is produced -- the claim requires a Literal
binding. -/
theorem claim6_counterexample :
    sim.extractTopLevel exampleNegModule
        = [⟨"X", PyVal.int (-5), 1, 0, true⟩]
    ∧ dictLookup (sim.prepareConfigOfFile (sim.extractTopLevel exampleNegModule)) "X"
        = none := by
  exact ⟨rfl, rfl⟩

/-- C6 amended: `dev_tools` classifies a unary-negated numeric constant as a
Literal with the negated value; `sim_manager` marks the same binding as an
expression, excluding it from configurability. -/
theorem claim6_amended_negation_classified :
    (∀ (nm : String) (src : Option String) (l c : Nat) (n : Int),
        pStartsWith nm "_" = false →
        dev.extractAssign ⟨[PyTarget.name nm], .usub (.const (.int n)), src, l, c⟩
          = some ⟨nm, PyVal.int (-n), l, c, false⟩)
    ∧ (∀ (nm : String) (src : Option String) (l c : Nat) (q : Rat),
        pStartsWith nm "_" = false →
        dev.extractAssign ⟨[PyTarget.name nm], .usub (.const (.float q)), src, l, c⟩
          = some ⟨nm, PyVal.float (-q), l, c, false⟩)
    ∧ (∀ e : PyExpr, sim.isExpressionNode (.usub e) = true) := by
  refine ⟨?_, ?_, fun e => rfl⟩
  · intro nm src l c n h
    simp [dev.extractAssign, literalEval, h]
  · intro nm src l c q h
    simp [dev.extractAssign, literalEval, h]

/-! ## Claim C7 -/

/-- C7 counterexample: for the two-file directory (one file with no
top-level assignments, one with three literal assignments) the manifest has
a single key -- the assignment-free file is left out of `extracted_vars`
and so gets no (empty) entry set, while the claim requires two keys. -/
theorem claim7_counterexample :
    (sim.configDataOf (sim.extractPhase exampleDirFiles)).map Prod.fst = ["b.py"] := by
  rfl

/-- C7 amended: the manifest holds exactly one key, the three-assignment
file, with its three entries in declaration-line order; the assignment-free
file is omitted from the manifest entirely; and only the second file is
modified on disk. -/
theorem claim7_amended_one_key :
    sim.configDataOf (sim.extractPhase exampleDirFiles)
      = [("b.py",
          [("X", { value := PyVal.int 1, type := "int", arg := "--x", line := 1 }),
           ("Y", { value := PyVal.int 2, type := "int", arg := "--y", line := 2 }),
           ("Z", { value := PyVal.int 3, type := "int", arg := "--z", line := 3 })])]
    ∧ dev.modifiedFiles exampleDevDirFiles = ["b.py"] := by
  exact ⟨rfl, rfl⟩

/-! ## Claim C10 -/

/-- C10: `create_manager_script` writes `manager.py` unconditionally -- for
every prior directory content, including one holding a launcher from a
previous run, the written file is exactly the freshly generated text around
the current serialized manifest; no prior content is consulted. -/
theorem claim10_manager_always_rewritten :
    ∀ (directory : List (String × String)) (config_str : String),
      dictLookup (launcher.create_manager_script directory config_str) "manager.py"
        = some (launcher.managerContent config_str)
      ∧ launcher.managerContent config_str
          = launcher.managerHead ++ config_str ++ launcher.managerTail := by
  intro directory config_str
  exact ⟨dictLookup_dictInsert_self directory "manager.py"
    (launcher.managerContent config_str), rfl⟩

end Sim2Cfg

namespace Sim2Cfg

/-! ## Claim C8 -/

/-- Membership in a per-statement concatenation over a statement list. -/
theorem mem_stmtConcat (f : PyStmt → List ExtractedVar) :
    ∀ (body : List PyStmt) (v : ExtractedVar),
      v ∈ body.foldr (fun st acc => f st ++ acc) [] ↔ ∃ st ∈ body, v ∈ f st := by
  intro body v
  induction body with
  | nil => simp
  | cons st rest ih =>
    rw [List.foldr_cons, List.mem_append, ih]
    simp

/-- Every binding the `sim_manager` extraction produces comes from a `Name`
target of some top-level assignment, and carries that assignment's
expression flag. -/
theorem mem_sim_extractTopLevel {m : PyModule} {v : ExtractedVar}
    (hv : v ∈ sim.extractTopLevel m) :
    ∃ a : PyAssign, PyStmt.assign a ∈ m.body
      ∧ PyTarget.name v.var_name ∈ a.targets
      ∧ v.is_expression = sim.isExpressionNode a.value := by
  have hmem := (mem_stmtConcat (fun st => match st with
      | PyStmt.assign a => sim.extractAssign a
      | _ => ([] : List ExtractedVar)) m.body v).mp hv
  rcases hmem with ⟨st, hst, hv'⟩
  cases st with
  | assign a =>
    refine ⟨a, hst, ?_⟩
    unfold sim.extractAssign at hv'
    rcases List.mem_filterMap.mp hv' with ⟨t, ht, hmk⟩
    cases t with
    | name id =>
      by_cases hu : pStartsWith id "_" = true
      · simp [hu] at hmk
      · rw [Bool.not_eq_true] at hu
        simp only [hu, Bool.false_eq_true, if_false] at hmk
        injection hmk with h2
        subst h2
        exact ⟨ht, rfl⟩
    | otherTarget => simp at hmk
  | funcDef nm body => simp at hv'
  | classDef nm body => simp at hv'
  | otherStmt => simp at hv'

/-- Every binding `_extract_variables_from_file` produces comes from a
single-`Name`-target assignment whose identifier is the binding's name. -/
theorem dev_extractAssign_target {a : PyAssign} {v : ExtractedVar}
    (h : dev.extractAssign a = some v) :
    PyTarget.name v.var_name ∈ a.targets := by
  rcases a with ⟨ts, value, src, l, c⟩
  rcases ts with - | ⟨t, rest⟩
  · exact absurd h (by simp [dev.extractAssign])
  rcases t with id | -
  · rcases rest with - | ⟨t2, rest2⟩
    · by_cases hu : pStartsWith id "_" = true
      · exact absurd h (by simp [dev.extractAssign, hu])
      · rw [Bool.not_eq_true] at hu
        unfold dev.extractAssign at h
        simp only [hu, Bool.false_eq_true, if_false] at h
        split at h
        · exact absurd h (by simp)
        · injection h with h2
          subst h2
          simp
        · exact absurd h (by simp)
    · exact absurd h (by simp [dev.extractAssign])
  · exact absurd h (by simp [dev.extractAssign])

/-- A binding extracted by `dev_tools` from an attribute-valued assignment
is flagged as an expression. -/
theorem dev_extractAssign_attr_is_expression {a : PyAssign} {v : ExtractedVar}
    {obj : PyExpr} {fld : String} (hval : a.value = PyExpr.attrE obj fld)
    (h : dev.extractAssign a = some v) :
    v.is_expression = true := by
  rcases a with ⟨ts, value, src, l, c⟩
  simp only at hval
  subst hval
  rcases ts with - | ⟨t, rest⟩
  · exact absurd h (by simp [dev.extractAssign])
  rcases t with id | -
  · rcases rest with - | ⟨t2, rest2⟩
    · by_cases hu : pStartsWith id "_" = true
      · exact absurd h (by simp [dev.extractAssign, hu])
      · rw [Bool.not_eq_true] at hu
        unfold dev.extractAssign at h
        simp only [hu, Bool.false_eq_true, if_false] at h
        injection h with h2
        subst h2
        rfl
    · exact absurd h (by simp [dev.extractAssign])
  · exact absurd h (by simp [dev.extractAssign])

/-- Every binding the `dev_tools` extraction produces comes from a
top-level assignment node. -/
theorem mem_dev_extractTopLevel {m : PyModule} {v : ExtractedVar}
    (hv : v ∈ dev.extractTopLevel m) :
    ∃ a : PyAssign, PyStmt.assign a ∈ m.body ∧ dev.extractAssign a = some v := by
  unfold dev.extractTopLevel at hv
  rcases List.mem_filterMap.mp hv with ⟨st, hst, hsome⟩
  cases st with
  | assign a => exact ⟨a, hst, hsome⟩
  | funcDef nm body => simp at hsome
  | classDef nm body => simp at hsome
  | otherStmt => simp at hsome

/-- C8: in a file where every top-level assignment binding a name reads an
attribute off an object -- the shape `name = args.<attr>` every rewritten
line has -- reclassification yields zero Literal bindings for that name in
both implementations, and both config builders produce no entry for it, so
re-running never re-wraps the assignment. -/
theorem claim8_rewritten_file_reclassifies_no_literal (m : PyModule) (nm : String)
    (h : ∀ a : PyAssign, PyStmt.assign a ∈ m.body →
        PyTarget.name nm ∈ a.targets →
        ∃ obj fld, a.value = PyExpr.attrE obj fld) :
    ((sim.extractTopLevel m).filter (fun v => v.var_name == nm && !v.is_expression)) = []
    ∧ ((dev.extractTopLevel m).filter (fun v => v.var_name == nm && !v.is_expression)) = []
    ∧ dictLookup (sim.prepareConfigOfFile (sim.extractTopLevel m)) nm = none
    ∧ dictLookup (configFold (fun w => !w.is_expression) dev.mkEntry
        (dev.extractTopLevel m)) nm = none := by
  have hsim : ∀ v ∈ sim.extractTopLevel m, v.var_name = nm → v.is_expression = true := by
    intro v hv hname
    rcases mem_sim_extractTopLevel hv with ⟨a, ha, htarget, hexpr⟩
    rcases h a ha (hname ▸ htarget) with ⟨obj, fld, hval⟩
    rw [hexpr, hval]
    rfl
  have hdev : ∀ v ∈ dev.extractTopLevel m, v.var_name = nm → v.is_expression = true := by
    intro v hv hname
    rcases mem_dev_extractTopLevel hv with ⟨a, ha, hsome⟩
    have htarget := dev_extractAssign_target hsome
    rw [hname] at htarget
    rcases h a ha htarget with ⟨obj, fld, hval⟩
    exact dev_extractAssign_attr_is_expression hval hsome
  have hsimfilter :
      ((sim.extractTopLevel m).filter (fun v => v.var_name == nm && !v.is_expression)) = [] := by
    rw [List.filter_eq_nil_iff]
    intro v hv hp
    rw [Bool.and_eq_true] at hp
    have := hsim v hv (eq_of_beq hp.1)
    simp [this] at hp
  have hdevfilter :
      ((dev.extractTopLevel m).filter (fun v => v.var_name == nm && !v.is_expression)) = [] := by
    rw [List.filter_eq_nil_iff]
    intro v hv hp
    rw [Bool.and_eq_true] at hp
    have := hdev v hv (eq_of_beq hp.1)
    simp [this] at hp
  refine ⟨hsimfilter, hdevfilter, ?_, ?_⟩
  · rw [sim.prepareConfigOfFile, dictLookup_configFold]
    have hnone : (sim.extractTopLevel m).reverse.find?
        (fun v => v.var_name == nm && sim.accept v) = none := by
      rw [List.find?_eq_none]
      intro v hv hp
      rw [Bool.and_eq_true] at hp
      have hexp := hsim v (List.mem_reverse.mp hv) (eq_of_beq hp.1)
      have hacc := hp.2
      rw [sim.accept, hexp] at hacc
      simp at hacc
    rw [hnone]
    rfl
  · rw [dictLookup_configFold]
    have hnone : (dev.extractTopLevel m).reverse.find?
        (fun v => v.var_name == nm && !v.is_expression) = none := by
      rw [List.find?_eq_none]
      intro v hv hp
      rw [Bool.and_eq_true] at hp
      have hexp := hdev v (List.mem_reverse.mp hv) (eq_of_beq hp.1)
      rw [hexp] at hp
      simp at hp
    rw [hnone]
    rfl

/-- C8 witness: the file whose one binding already reads `X = args.x`. -/
theorem claim8_witness :
    ((sim.extractTopLevel exampleRewrittenModule).filter
        (fun v => v.var_name == "X" && !v.is_expression)) = []
    ∧ ((dev.extractTopLevel exampleRewrittenModule).filter
        (fun v => v.var_name == "X" && !v.is_expression)) = []
    ∧ dictLookup (sim.prepareConfigOfFile
        (sim.extractTopLevel exampleRewrittenModule)) "X" = none
    ∧ dictLookup (configFold (fun w => !w.is_expression) dev.mkEntry
        (dev.extractTopLevel exampleRewrittenModule)) "X" = none :=
  claim8_rewritten_file_reclassifies_no_literal exampleRewrittenModule "X"
    (by
      intro a ha hmem
      simp only [exampleRewrittenModule, List.mem_singleton] at ha
      injection ha with ha'
      subst ha'
      exact ⟨PyExpr.name "args", "x", rfl⟩)

end Sim2Cfg

namespace Sim2Cfg

/-! ## Claim C9 -/

/-- The extraction loop as a filter-map: each file contributes its own
entry (or nothing), independently of the other files. -/
theorem sim_extractPhase_eq (files : List sim.SimFile) :
    sim.extractPhase files = files.filterMap (fun fl =>
      match fl.parsed with
      | .error _ => none
      | .ok m =>
        if (sim.extractTopLevel m).isEmpty then none
        else some (fl.filename, sim.extractTopLevel m)) := by
  have aux : ∀ (fs : List sim.SimFile) (acc : List (String × List ExtractedVar)),
      fs.foldl (fun acc f =>
        match f.parsed with
        | .error _ => acc
        | .ok m =>
          let file_vars := sim.extractTopLevel m
          if file_vars.isEmpty then acc else acc ++ [(f.filename, file_vars)]) acc
        = acc ++ fs.filterMap (fun fl =>
            match fl.parsed with
            | .error _ => none
            | .ok m =>
              if (sim.extractTopLevel m).isEmpty then none
              else some (fl.filename, sim.extractTopLevel m)) := by
    intro fs
    induction fs with
    | nil => intro acc; simp
    | cons f rest ih =>
      intro acc
      rw [List.foldl_cons, List.filterMap_cons]
      cases hp : f.parsed with
      | error e => simp only [hp]; rw [ih]
      | ok m =>
        by_cases he : (sim.extractTopLevel m).isEmpty = true
        · simp only [hp, he, if_true]
          rw [ih]
        · rw [Bool.not_eq_true] at he
          simp only [hp, he, Bool.false_eq_true, if_false]
          rw [ih, List.append_assoc]
          rfl
  have base := aux files []
  simpa [sim.extractPhase] using base

/-- Every entry of `extracted_vars` carries the filename of the file that
produced it. -/
theorem mem_sim_extractPhase_name {files : List sim.SimFile}
    {p : String × List ExtractedVar} (hp : p ∈ sim.extractPhase files) :
    ∃ fl ∈ files, p.1 = fl.filename := by
  rw [sim_extractPhase_eq] at hp
  rcases List.mem_filterMap.mp hp with ⟨fl, hfl, hg⟩
  refine ⟨fl, hfl, ?_⟩
  cases hparsed : fl.parsed with
  | error e => rw [hparsed] at hg; simp at hg
  | ok m =>
    rw [hparsed] at hg
    by_cases he : (sim.extractTopLevel m).isEmpty = true
    · simp [he] at hg
    · rw [Bool.not_eq_true] at he
      simp only [he, Bool.false_eq_true, if_false] at hg
      injection hg with h2
      rw [← h2]

/-- A file's entry in `extracted_vars` is unaffected by the other files of
the directory: looking the file up in a run surrounded by arbitrary other
files equals looking it up in a run over that file alone. -/
theorem sim_extractPhase_lookup_isolated (pre post : List sim.SimFile)
    (f : sim.SimFile) (h : ∀ g ∈ pre ++ post, g.filename ≠ f.filename) :
    dictLookup (sim.extractPhase (pre ++ [f] ++ post)) f.filename
      = dictLookup (sim.extractPhase [f]) f.filename := by
  rw [sim_extractPhase_eq, sim_extractPhase_eq]
  unfold dictLookup
  rw [List.filterMap_append, List.filterMap_append, List.find?_append,
    List.find?_append]
  have hside : ∀ fs : List sim.SimFile, (∀ g ∈ fs, g.filename ≠ f.filename) →
      List.find? (fun p => p.1 == f.filename) (fs.filterMap (fun fl =>
        match fl.parsed with
        | .error _ => none
        | .ok m =>
          if (sim.extractTopLevel m).isEmpty then none
          else some (fl.filename, sim.extractTopLevel m))) = none := by
    intro fs hfs
    rw [List.find?_eq_none]
    intro p hp
    have hname : ∃ fl ∈ fs, p.1 = fl.filename := by
      have : p ∈ sim.extractPhase fs := by rw [sim_extractPhase_eq]; exact hp
      exact mem_sim_extractPhase_name this
    rcases hname with ⟨fl, hfl, hpn⟩
    have hne := hfs fl hfl
    rw [hpn]
    simpa using hne
  have hpre := hside pre (fun g hg => h g (List.mem_append_left post hg))
  have hpost := hside post (fun g hg => h g (List.mem_append_right pre hg))
  rw [hpre, hpost]
  simp

/-- The command on an existing directory -- the glob and the manager write
succeeding, at least one file found and at least one variable extracted --
returns the non-fatal summary of the full run. -/
theorem sim_command_ok_results (files : List sim.SimFile)
    (hne : files.isEmpty = false)
    (hext : (sim.extractPhase files).isEmpty = false) :
    sim.extract_and_link_fields_command ⟨true, true, true, files, true⟩
      = .ok { extracted_vars := sim.extractPhase files,
              config_data := sim.configDataOf (sim.extractPhase files),
              results := files.map fun fl =>
                (fl.filename, sim.modifyOne (sim.extractPhase files) fl) } := by
  unfold sim.extract_and_link_fields_command
  simp [hne, hext]

/-- Looking up a file's per-file result among the mapped results finds its
own, when no other file shares its name. -/
theorem dictLookup_resultsMap (E : List (String × List ExtractedVar))
    (pre post : List sim.SimFile) (f : sim.SimFile)
    (h : ∀ g ∈ pre ++ post, g.filename ≠ f.filename) :
    dictLookup ((pre ++ [f] ++ post).map
        (fun fl => (fl.filename, sim.modifyOne E fl))) f.filename
      = some (sim.modifyOne E f) := by
  unfold dictLookup
  rw [List.map_append, List.map_append, List.find?_append, List.find?_append]
  have hpre : List.find? (fun p => p.1 == f.filename)
      (pre.map (fun fl => (fl.filename, sim.modifyOne E fl))) = none := by
    rw [List.find?_eq_none]
    intro p hp
    rcases List.mem_map.mp hp with ⟨fl, hfl, hfl2⟩
    rw [← hfl2]
    simpa using h fl (List.mem_append_left post hfl)
  have hmid : List.find? (fun p => p.1 == f.filename)
      ([f].map (fun fl => (fl.filename, sim.modifyOne E fl)))
      = some (f.filename, sim.modifyOne E f) :=
    List.find?_cons_of_pos _ (by simp)
  rw [hpre, hmid]
  simp

/-- C9 counterexample: with the path present and a directory, the glob
succeeding, and a file whose literal bindings are extracted, a failing
`create_manager_script` (the `manager.py` write) still kills the whole
process -- a fatal outcome beyond the two path checks the claim allows. -/
theorem claim9_counterexample :
    sim.extract_and_link_fields_command
        ⟨true, true, true, [⟨"b.py", .ok exampleThreeModule, true⟩], false⟩
      = .error .managerWriteRaised
    ∧ sim.isFatal (sim.extract_and_link_fields_command
        ⟨true, true, true, [⟨"b.py", .ok exampleThreeModule, true⟩], false⟩) = true := by
  exact ⟨rfl, rfl⟩

/-- C9 amended: per-file failures stay local -- with the directory checks,
the glob and the manager write succeeding, a file contributing bindings gets
the same reported outcome in a run surrounded by arbitrary other files
(parse failures, I/O failures included) as in a run over that file alone --
but the two path checks are not the only fatal conditions: the command dies
exactly when the path is missing, the path is not a directory, the glob
raises, or `create_manager_script` raises after a non-empty extraction. -/
theorem claim9_per_file_failures_local :
    (∀ req : sim.DirRequest,
        sim.isFatal (sim.extract_and_link_fields_command req)
          = (!req.dirExists || !req.isDirectory || !req.globOk
              || (!req.files.isEmpty && !(sim.extractPhase req.files).isEmpty
                  && !req.managerWriteOk)))
    ∧ (∀ (pre post : List sim.SimFile) (f : sim.SimFile),
        (∀ g ∈ pre ++ post, g.filename ≠ f.filename) →
        (sim.extractPhase [f]).isEmpty = false →
        sim.resultFor ⟨true, true, true, pre ++ [f] ++ post, true⟩ f.filename
          = some (sim.modifyOne (sim.extractPhase [f]) f)) := by
  constructor
  · intro req
    rcases req with ⟨de, dir, glob, files, mw⟩
    cases de
    · rfl
    cases dir
    · rfl
    cases glob
    · rfl
    by_cases hf : files.isEmpty = true
    · simp [sim.extract_and_link_fields_command, sim.isFatal, hf]
    · rw [Bool.not_eq_true] at hf
      by_cases he : (sim.extractPhase files).isEmpty = true
      · simp [sim.extract_and_link_fields_command, sim.isFatal, hf, he]
      · rw [Bool.not_eq_true] at he
        cases mw
        · simp [sim.extract_and_link_fields_command, sim.isFatal, hf, he]
        · simp [sim.extract_and_link_fields_command, sim.isFatal, hf, he]
  · intro pre post f h hfext
    have hne : (pre ++ [f] ++ post).isEmpty = false := by
      cases pre <;> rfl
    have hext : (sim.extractPhase (pre ++ [f] ++ post)).isEmpty = false := by
      cases hb : (sim.extractPhase (pre ++ [f] ++ post)).isEmpty
      · rfl
      · exfalso
        have hnil : sim.extractPhase (pre ++ [f] ++ post) = [] := by
          simpa using hb
        rw [sim_extractPhase_eq, List.filterMap_append, List.filterMap_append] at hnil
        rcases List.append_eq_nil.mp hnil with ⟨h3, -⟩
        rcases List.append_eq_nil.mp h3 with ⟨-, h5⟩
        have hfnil : sim.extractPhase [f] = [] := by
          rw [sim_extractPhase_eq]
          exact h5
        rw [hfnil] at hfext
        simp at hfext
    unfold sim.resultFor
    rw [sim_command_ok_results _ hne hext]
    show dictLookup ((pre ++ [f] ++ post).map
        (fun fl => (fl.filename, sim.modifyOne
          (sim.extractPhase (pre ++ [f] ++ post)) fl))) f.filename
      = some (sim.modifyOne (sim.extractPhase [f]) f)
    rw [dictLookup_resultsMap _ pre post f h]
    unfold sim.modifyOne
    rw [sim_extractPhase_lookup_isolated pre post f h]

end Sim2Cfg
